import Mathlib

/-!
# Batch churn-prediction front end

A shallow embedding of the batch pipeline of the React front end:

* `frontend/src/components/BatchPrediction.jsx` : `SAMPLE_JSON`, `handleSubmit`
* `frontend/src/api/apiService.js` : `predictBatch`
* `frontend/src/components/BatchPredictionResults.jsx` : the counts, the risk
  level of a row and the churn rate of the summary

JavaScript values are a first-order datatype, a thrown exception is the
`error` side of `Except`, and the two platform calls the handler makes
(`JSON.parse` and the axios `api.post`) enter as their outcomes.  Numbers are
doubles taken by their exact rational value; an arithmetic operator is the exact
operation followed by the rounding `toDouble`.
-/

namespace ChurnFrontend

/-! ## JavaScript values -/

/-- JavaScript values as far as the pipeline meets them: the JSON values, plus
`undefined`, which a missing property reads as.  A number is a finite IEEE-754
double, recorded by the rational it denotes, so that the comparison of two
doubles is the comparison of their rationals.  An object is the list of its own
enumerable properties, keys distinct, in insertion order. -/
inductive JSValue where
  | undefined : JSValue
  | null : JSValue
  | bool (b : Bool) : JSValue
  | num (q : ℚ) : JSValue
  | str (s : String) : JSValue
  | arr (items : List JSValue) : JSValue
  | obj (fields : List (String × JSValue)) : JSValue

/-- The test `Array.isArray(v)`. -/
def isArray : JSValue → Bool
  | .arr _ => true
  | _ => false

/-- The conversion ToBoolean, which `&&`, `||` and `!` apply to an operand. -/
def truthy : JSValue → Bool
  | .undefined => false
  | .null => false
  | .bool b => b
  | .num q => decide (q ≠ 0)
  | .str s => decide (s ≠ "")
  | .arr _ => true
  | .obj _ => true

/-- The expression `a || b`. -/
def jsOr (a b : JSValue) : JSValue :=
  if truthy a then a else b

/-- A thrown exception object, by the two properties the handler reads from it:
`response` (set by axios when the server answered, `undefined` on a plain
`Error`) and `message`. -/
structure JSError where
  response : JSValue
  message : JSValue

/-- The expression `new Error(msg)`. -/
def newError (msg : String) : JSError :=
  { response := .undefined, message := .str msg }

/-- The property read `v.key` on a value that is neither `null` nor `undefined`,
for the keys this program reads (`customers`, `data`, `detail`): an object
yields its own property or `undefined`; arrays, strings, numbers and booleans
have no property of these names. -/
def ownProp (v : JSValue) (key : String) : JSValue :=
  match v with
  | .obj fields => (fields.lookup key).getD .undefined
  | _ => .undefined

/-- The property read `v.key`: reading a property of `null` or `undefined`
throws a TypeError (message as V8 words it). -/
def getProp (v : JSValue) (key : String) : Except JSError JSValue :=
  match v with
  | .undefined =>
      .error (newError ("Cannot read properties of undefined (reading " ++ key ++ ")"))
  | .null =>
      .error (newError ("Cannot read properties of null (reading " ++ key ++ ")"))
  | w => .ok (ownProp w key)

/-- The optional chain `v?.key`. -/
def optChain (v : JSValue) (key : String) : JSValue :=
  match v with
  | .undefined => .undefined
  | .null => .undefined
  | w => ownProp w key

/-! ## Risk level (`BatchPredictionResults.jsx`, line 47) -/

/-- The number the literal `0.7` denotes: the double `0x3FE6666666666666`. -/
def double_0_7 : ℚ := 3152519739159347 / 4503599627370496

/-- The number the literal `0.4` denotes: the double `0x3FD999999999999A`. -/
def double_0_4 : ℚ := 3602879701896397 / 9007199254740992

/-- The risk level of a row:
`prob > 0.7 ? 'High' : prob > 0.4 ? 'Medium' : 'Low'`. -/
def riskLevel (prob : ℚ) : String :=
  if prob > double_0_7 then "High" else if prob > double_0_4 then "Medium" else "Low"

/-! ## The scoring client (`apiService.js`) -/

/-- An HTTP request handed to `api.post(url, body)`. -/
structure Request where
  url : String
  body : JSValue

/-- The axios response object, by the one property the client reads. -/
structure Response where
  data : JSValue

/-- The call `api.post(url, body)` as seen by the client: the promise resolves
with a response or rejects with an error. -/
abbrev Transport := Request → Except JSError Response

/-- The request `predictBatch(customers, modelVersion = 'v1_lr')` builds (lines
49 to 52).  An absent (`undefined`) second argument is `none` and takes the
default; the model identifier is spliced into the URL by the template literal. -/
def predictBatchRequest (customers : JSValue) (modelVersion : Option String) : Request :=
  { url := "/predict/batch?model_version=" ++ modelVersion.getD "v1_lr",
    body := .obj [("customers", customers)] }

/-- The method `apiService.predictBatch` (lines 49 to 54): one `api.post`, whose
`response.data` is returned; a rejection propagates.  The second component
lists the requests sent. -/
def predictBatch (post : Transport) (customers : JSValue) (modelVersion : Option String) :
    Except JSError JSValue × List Request :=
  let request := predictBatchRequest customers modelVersion
  match post request with
  | .ok response => (.ok response.data, [request])
  | .error err => (.error err, [request])

/-! ## The submit handler (`BatchPrediction.jsx`) -/

/-- Record 1 of `SAMPLE_JSON.customers`. -/
def sampleCustomer1 : JSValue :=
  .obj [
    ("Gender", .str "Male"),
    ("Senior Citizen", .str "No"),
    ("Partner", .str "Yes"),
    ("Dependents", .str "No"),
    ("Phone Service", .str "Yes"),
    ("Multiple Lines", .str "No"),
    ("Internet Service", .str "Fiber optic"),
    ("Online Security", .str "No"),
    ("Online Backup", .str "Yes"),
    ("Device Protection", .str "No"),
    ("Tech Support", .str "No"),
    ("Streaming TV", .str "Yes"),
    ("Streaming Movies", .str "Yes"),
    ("Contract", .str "Month-to-month"),
    ("Paperless Billing", .str "Yes"),
    ("Payment Method", .str "Electronic check"),
    ("Tenure Months", .num 5),
    ("Monthly Charges", .num (179 / 2)),  -- 89.5
    ("Total Charges", .num (7920002157196083 / 17592186044416)),  -- 450.2
    ("CLTV", .num 3200)]

/-- Record 2 of `SAMPLE_JSON.customers`. -/
def sampleCustomer2 : JSValue :=
  .obj [
    ("Gender", .str "Female"),
    ("Senior Citizen", .str "Yes"),
    ("Partner", .str "No"),
    ("Dependents", .str "No"),
    ("Phone Service", .str "Yes"),
    ("Multiple Lines", .str "Yes"),
    ("Internet Service", .str "DSL"),
    ("Online Security", .str "Yes"),
    ("Online Backup", .str "Yes"),
    ("Device Protection", .str "Yes"),
    ("Tech Support", .str "Yes"),
    ("Streaming TV", .str "No"),
    ("Streaming Movies", .str "No"),
    ("Contract", .str "Two year"),
    ("Paperless Billing", .str "No"),
    ("Payment Method", .str "Credit card (automatic)"),
    ("Tenure Months", .num 45),
    ("Monthly Charges", .num (4630263366890291 / 70368744177664)),  -- 65.8
    ("Total Charges", .num 2961),
    ("CLTV", .num 5800)]

/-- Record 3 of `SAMPLE_JSON.customers`. -/
def sampleCustomer3 : JSValue :=
  .obj [
    ("Gender", .str "Male"),
    ("Senior Citizen", .str "No"),
    ("Partner", .str "No"),
    ("Dependents", .str "Yes"),
    ("Phone Service", .str "No"),
    ("Multiple Lines", .str "No phone service"),
    ("Internet Service", .str "Fiber optic"),
    ("Online Security", .str "No"),
    ("Online Backup", .str "No"),
    ("Device Protection", .str "No"),
    ("Tech Support", .str "No"),
    ("Streaming TV", .str "Yes"),
    ("Streaming Movies", .str "Yes"),
    ("Contract", .str "Month-to-month"),
    ("Paperless Billing", .str "Yes"),
    ("Payment Method", .str "Electronic check"),
    ("Tenure Months", .num 2),
    ("Monthly Charges", .num (191 / 2)),  -- 95.5
    ("Total Charges", .num 191),
    ("CLTV", .num 2100)]

/-- Record 4 of `SAMPLE_JSON.customers`. -/
def sampleCustomer4 : JSValue :=
  .obj [
    ("Gender", .str "Female"),
    ("Senior Citizen", .str "No"),
    ("Partner", .str "Yes"),
    ("Dependents", .str "Yes"),
    ("Phone Service", .str "Yes"),
    ("Multiple Lines", .str "Yes"),
    ("Internet Service", .str "DSL"),
    ("Online Security", .str "Yes"),
    ("Online Backup", .str "No"),
    ("Device Protection", .str "Yes"),
    ("Tech Support", .str "No"),
    ("Streaming TV", .str "No"),
    ("Streaming Movies", .str "No"),
    ("Contract", .str "One year"),
    ("Paperless Billing", .str "Yes"),
    ("Payment Method", .str "Bank transfer (automatic)"),
    ("Tenure Months", .num 24),
    ("Monthly Charges", .num (5087660204045107 / 70368744177664)),  -- 72.3
    ("Total Charges", .num (7631490306067661 / 4398046511104)),  -- 1735.2
    ("CLTV", .num 4200)]

/-- Record 5 of `SAMPLE_JSON.customers`. -/
def sampleCustomer5 : JSValue :=
  .obj [
    ("Gender", .str "Male"),
    ("Senior Citizen", .str "Yes"),
    ("Partner", .str "Yes"),
    ("Dependents", .str "No"),
    ("Phone Service", .str "Yes"),
    ("Multiple Lines", .str "No"),
    ("Internet Service", .str "No"),
    ("Online Security", .str "No internet service"),
    ("Online Backup", .str "No internet service"),
    ("Device Protection", .str "No internet service"),
    ("Tech Support", .str "No internet service"),
    ("Streaming TV", .str "No internet service"),
    ("Streaming Movies", .str "No internet service"),
    ("Contract", .str "Two year"),
    ("Paperless Billing", .str "No"),
    ("Payment Method", .str "Mailed check"),
    ("Tenure Months", .num 60),
    ("Monthly Charges", .num (2835860390359859 / 140737488355328)),  -- 20.15
    ("Total Charges", .num 1209),
    ("CLTV", .num 3500)]

/-- Record 6 of `SAMPLE_JSON.customers`. -/
def sampleCustomer6 : JSValue :=
  .obj [
    ("Gender", .str "Female"),
    ("Senior Citizen", .str "No"),
    ("Partner", .str "No"),
    ("Dependents", .str "No"),
    ("Phone Service", .str "Yes"),
    ("Multiple Lines", .str "No"),
    ("Internet Service", .str "Fiber optic"),
    ("Online Security", .str "Yes"),
    ("Online Backup", .str "Yes"),
    ("Device Protection", .str "Yes"),
    ("Tech Support", .str "Yes"),
    ("Streaming TV", .str "Yes"),
    ("Streaming Movies", .str "Yes"),
    ("Contract", .str "One year"),
    ("Paperless Billing", .str "Yes"),
    ("Payment Method", .str "Credit card (automatic)"),
    ("Tenure Months", .num 12),
    ("Monthly Charges", .num (3717228911185101 / 35184372088832)),  -- 105.65
    ("Total Charges", .num (5575843366777651 / 4398046511104)),  -- 1267.8
    ("CLTV", .num 4500)]

/-- The constant `SAMPLE_JSON` (lines 5 to 140): an object whose `customers`
property holds six records.  A fractional literal is written as the double it
denotes, the literal itself in the comment beside it. -/
def SAMPLE_JSON : JSValue :=
  .obj [("customers", .arr [sampleCustomer1, sampleCustomer2, sampleCustomer3,
    sampleCustomer4, sampleCustomer5, sampleCustomer6])]

/-- The component state `handleSubmit` writes: `results`, `loading`, `error`. -/
structure State where
  results : JSValue
  loading : Bool
  error : JSValue

/-- One call `apiService.predictBatch(customers, modelVersion)`. -/
structure BatchCall where
  customers : JSValue
  modelVersion : Option String

/-- What a run of `handleSubmit` leaves behind: the component state, the calls
made to `apiService.predictBatch`, and the HTTP requests those calls sent. -/
structure Run where
  state : State
  calls : List BatchCall
  requests : List Request

/-- The normalization of the parsed value (lines 164 to 171):
`parsed.customers` if it is truthy and an array, else `parsed` if it is an
array, else `[parsed]`.  The property read throws on `null`. -/
def normalize (parsed : JSValue) : Except JSError JSValue :=
  match getProp parsed "customers" with
  | .error err => .error err
  | .ok c =>
    if truthy c && isArray c then .ok c
    else if isArray parsed then .ok parsed
    else .ok (.arr [parsed])

/-- The inner `try`/`catch` (lines 161 to 174): `JSON.parse(jsonInput)`, whose
outcome is `parseOutcome`, followed by the normalization; whatever is thrown
inside is replaced by one fixed `Error`. -/
def parseCustomers (parseOutcome : Except JSError JSValue) : Except JSError JSValue :=
  match parseOutcome with
  | .error _ => .error (newError "Invalid JSON format. Please check your syntax.")
  | .ok parsed =>
    match normalize parsed with
    | .error _ => .error (newError "Invalid JSON format. Please check your syntax.")
    | .ok customers => .ok customers

/-- The two size guards (lines 176 to 182). -/
def validate (customers : JSValue) : Except JSError Unit :=
  match customers with
  | .arr items =>
    if items.length = 0 then
      .error (newError "Please provide at least one customer object.")
    else if items.length > 10000 then
      .error (newError "Maximum 10,000 customers allowed per batch.")
    else .ok ()
  | _ => .error (newError "Please provide at least one customer object.")

/-- The value given to `setError` in the outer `catch` (line 187):
`err.response?.data?.detail || err.message || 'An error occurred'`. -/
def errorShown (err : JSError) : JSValue :=
  jsOr (jsOr (optChain (optChain err.response "data") "detail") err.message)
    (.str "An error occurred")

/-- The handler `handleSubmit` (lines 153 to 191), from the state `s` it starts
in.  `parseOutcome` is the outcome of `JSON.parse(jsonInput)`, `selectedModel`
the component's prop (`none` when `undefined`), `post` the transport. -/
def handleSubmit (post : Transport) (parseOutcome : Except JSError JSValue)
    (selectedModel : Option String) (s : State) : Run :=
  -- setLoading(true); setError(null); setResults(null)
  let s1 : State := { s with loading := true, error := .null, results := .null }
  match parseCustomers parseOutcome with
  | .error err =>
    { state := { s1 with error := errorShown err, loading := false },
      calls := [], requests := [] }
  | .ok customers =>
    match validate customers with
    | .error err =>
      { state := { s1 with error := errorShown err, loading := false },
        calls := [], requests := [] }
    | .ok _ =>
      match predictBatch post customers selectedModel with
      | (.ok prediction, sent) =>
        { state := { s1 with results := prediction, loading := false },
          calls := [{ customers := customers, modelVersion := selectedModel }],
          requests := sent }
      | (.error err, sent) =>
        { state := { s1 with error := errorShown err, loading := false },
          calls := [{ customers := customers, modelVersion := selectedModel }],
          requests := sent }

/-- The state the component mounts with (lines 144 to 146):
`results = null`, `loading = false`, `error = null`. -/
def initialState : State :=
  { results := .null, loading := false, error := .null }

/-- A customer field value as the data model has it: a string or a number. -/
inductive FieldValue where
  | str (s : String) : FieldValue
  | num (q : ℚ) : FieldValue

/-- A field value as a JavaScript value. -/
def FieldValue.toJS : FieldValue → JSValue
  | .str s => .str s
  | .num q => .num q

/-- A customer record: field names with their values. -/
abbrev CustomerRecord := List (String × FieldValue)

/-- A customer record as a JavaScript object. -/
def CustomerRecord.toJS (r : CustomerRecord) : JSValue :=
  .obj (r.map fun kv => (kv.1, kv.2.toJS))

/-- The body of the outer `try` (lines 160 to 185): the exception that reaches
the outer `catch`, or the prediction handed to `setResults`. -/
def tryBlock (post : Transport) (parseOutcome : Except JSError JSValue)
    (selectedModel : Option String) : Except JSError JSValue :=
  match parseCustomers parseOutcome with
  | .error err => .error err
  | .ok customers =>
    match validate customers with
    | .error err => .error err
    | .ok _ => (predictBatch post customers selectedModel).1

/-! ## Number arithmetic -/

/-- The integer nearest to a rational, a tie going to the even neighbour. -/
def roundHalfEven (q : ℚ) : ℤ :=
  if q - ⌊q⌋ < 1 / 2 then ⌊q⌋
  else if q - ⌊q⌋ > 1 / 2 then ⌊q⌋ + 1
  else if ⌊q⌋ % 2 = 0 then ⌊q⌋ else ⌊q⌋ + 1

/-- The double an exact result is rounded to (IEEE-754 binary64, round to
nearest, ties to even): with `e` the binary exponent of `q`, the multiple of
`2 ^ (e - 52)` nearest to `q`, that is a 53-bit significand.  This is the IEEE
result for the magnitudes of `normalRange`; overflow and subnormals are not
modelled. -/
def toDouble (q : ℚ) : ℚ :=
  if q = 0 then 0
  else roundHalfEven (q / 2 ^ (Int.log 2 |q| - 52)) * 2 ^ (Int.log 2 |q| - 52)

/-- The magnitudes on which `toDouble` is the IEEE rounding: zero, and from the
least normal double `2 ^ (-1022)` up to the greatest double. -/
def normalRange (q : ℚ) : Prop :=
  q = 0 ∨ ((2 : ℚ) ^ (-1022 : ℤ) ≤ |q| ∧ |q| ≤ (2 ^ 53 - 1) * 2 ^ 971)

instance : DecidablePred normalRange := fun q => by
  unfold normalRange
  infer_instance

/-- The operator `a / b` on numbers, for `b` other than zero: the exact
quotient, rounded. -/
def numDivide (a b : ℚ) : ℚ := toDouble (a / b)

/-- The operator `a * b` on numbers: the exact product, rounded. -/
def numMultiply (a b : ℚ) : ℚ := toDouble (a * b)

/-- The operator `a - b` on numbers: the exact difference, rounded. -/
def numSubtract (a b : ℚ) : ℚ := toDouble (a - b)

/-- The digits `toFixed(1)` prints for the integer `n` of tenths it has chosen:
the decimal digits of `n` with the point before the last one. -/
def showTenths (n : ℕ) : String :=
  toString (n / 10) ++ "." ++ toString (n % 10)

/-- The method `x.toFixed(1)` on a finite number below `10 ^ 21` in magnitude: a
minus sign for a negative `x`, then the integer `n` for which `n / 10` is
nearest to the magnitude (the larger `n` on a tie), printed with one decimal. -/
def toFixed1 (x : ℚ) : String :=
  if x < 0 then "-" ++ showTenths ⌊-x * 10 + 1 / 2⌋.toNat
  else showTenths ⌊x * 10 + 1 / 2⌋.toNat

/-! ## The results view (`BatchPredictionResults.jsx`) -/

/-- The object `pred.prediction` of a row, by the properties the view reads.
The churn flag stays a JavaScript value, since the view tests it with `=== 1`. -/
structure Prediction where
  churn_prediction : JSValue
  churn_probability : ℚ
  churn_label : String

/-- An element of `results.predictions`, by the properties the view reads. -/
structure PredictionOutcome where
  customer_index : ℤ
  prediction : Prediction
  input : JSValue

/-- The prop `results` of the view, by the properties line 4 destructures.  The
total is an integer count, held as a double; the pagination properties may be
`undefined`. -/
structure BatchResult where
  predictions : List PredictionOutcome
  total_customers : ℤ
  page : JSValue
  page_size : JSValue
  total_pages : JSValue

/-- The strict comparison `v === 1`: true for the number 1 only. -/
def strictEqualsOne (v : JSValue) : Bool :=
  match v with
  | .num q => decide (q = 1)
  | _ => false

/-- The count of line 5:
`predictions.filter(p => p.prediction.churn_prediction === 1).length`. -/
def churnCount (results : BatchResult) : ℕ :=
  (results.predictions.filter fun p => strictEqualsOne p.prediction.churn_prediction).length

/-- The count of line 6: `total_customers - churnCount`, a subtraction of
doubles: the exact difference of the two integers, rounded. -/
def noChurnCount (results : BatchResult) : ℚ :=
  numSubtract results.total_customers (churnCount results)

/-- The risk levels of the rows, in row order (lines 44 to 47). -/
def riskLevels (results : BatchResult) : List String :=
  results.predictions.map fun pred => riskLevel pred.prediction.churn_probability

/-- The number the literal `0.85` denotes: the double `0x3FEB333333333333`. -/
def double_0_85 : ℚ := 7656119366529843 / 9007199254740992

/-- The number the literal `0.2` denotes: the double `0x3FC999999999999A`. -/
def double_0_2 : ℚ := 3602879701896397 / 18014398509481984

/-- A two-row result for testing: the first row flagged as churn with
probability 0.85, the second not flagged with probability 0.2, total 2. -/
def twoRowResult : BatchResult :=
  { predictions :=
      [{ customer_index := 0,
         prediction := { churn_prediction := .num 1, churn_probability := double_0_85,
                         churn_label := "Churn" },
         input := sampleCustomer1 },
       { customer_index := 1,
         prediction := { churn_prediction := .num 0, churn_probability := double_0_2,
                         churn_label := "No Churn" },
         input := sampleCustomer2 }],
    total_customers := 2,
    page := .undefined, page_size := .undefined, total_pages := .undefined }

/-- A one-row result for testing: the row flagged as churn with probability
0.85, total 1. -/
def oneRowResult : BatchResult :=
  { predictions :=
      [{ customer_index := 0,
         prediction := { churn_prediction := .num 1, churn_probability := double_0_85,
                         churn_label := "Churn" },
         input := sampleCustomer1 }],
    total_customers := 1,
    page := .undefined, page_size := .undefined, total_pages := .undefined }

/-- A one-row result for testing whose total is the double `2 ^ 53 + 2`: the row
flagged as churn. -/
def hugeTotalResult : BatchResult :=
  { oneRowResult with total_customers := 9007199254740994 }

/-- An 80-row result for testing: 23 rows flagged as churn, 57 not, total 80. -/
def tieResult : BatchResult :=
  { predictions :=
      List.replicate 23
        { customer_index := 0,
          prediction := { churn_prediction := .num 1, churn_probability := double_0_85,
                          churn_label := "Churn" },
          input := sampleCustomer1 } ++
      List.replicate 57
        { customer_index := 0,
          prediction := { churn_prediction := .num 0, churn_probability := double_0_2,
                          churn_label := "No Churn" },
          input := sampleCustomer2 },
    total_customers := 80,
    page := .undefined, page_size := .undefined, total_pages := .undefined }

/-! ## The summary line (line 84) -/

/-- The percentage of the summary line (line 84):
`((churnCount / total_customers) * 100).toFixed(1)`.  A zero total makes the
quotient `NaN` (0 / 0) or `Infinity`, which `toFixed` prints by name. -/
def churnRateShown (results : BatchResult) : String :=
  if results.total_customers = 0 then
    if churnCount results = 0 then "NaN" else "Infinity"
  else
    toFixed1 (numMultiply (numDivide (churnCount results) results.total_customers) 100)

/-! ## Lemmas on the embedding -/

/-- The constant `double_0_7` is the 53-bit significand nearest to 7/10. -/
theorem double_0_7_nearest :
    double_0_7 = 6305039478318694 / 2 ^ 53 ∧ |double_0_7 - 7 / 10| < 1 / 2 ^ 54 := by
  unfold double_0_7
  constructor
  · norm_num
  · rw [abs_lt]; constructor <;> norm_num

/-- The constant `double_0_4` is the 53-bit significand nearest to 4/10. -/
theorem double_0_4_nearest :
    double_0_4 = 7205759403792794 / 2 ^ 54 ∧ |double_0_4 - 4 / 10| < 1 / 2 ^ 55 := by
  unfold double_0_4
  constructor
  · norm_num
  · rw [abs_lt]; constructor <;> norm_num

/-- The two thresholds are ordered. -/
theorem double_0_4_lt_double_0_7 : double_0_4 < double_0_7 := by
  unfold double_0_4 double_0_7
  norm_num

/-- An array has no `customers` property, so it normalizes to itself. -/
theorem normalize_arr (items : List JSValue) : normalize (.arr items) = .ok (.arr items) := by
  simp [normalize, getProp, ownProp, truthy, isArray]

/-- An object whose `customers` property is an array normalizes to that array. -/
theorem normalize_obj_of_customers (fields : List (String × JSValue)) (items : List JSValue)
    (h : fields.lookup "customers" = some (.arr items)) :
    normalize (.obj fields) = .ok (.arr items) := by
  simp [normalize, getProp, ownProp, h, truthy, isArray]

/-- An object whose `customers` property is not an array is wrapped. -/
theorem normalize_obj_of_not_array (fields : List (String × JSValue))
    (h : isArray (ownProp (.obj fields) "customers") = false) :
    normalize (.obj fields) = .ok (.arr [.obj fields]) := by
  have hobj : isArray (.obj fields) = false := rfl
  simp [normalize, getProp, h, hobj]

/-- No property of a customer record is an array. -/
theorem isArray_ownProp_record (r : CustomerRecord) (key : String) :
    isArray (ownProp r.toJS key) = false := by
  unfold CustomerRecord.toJS ownProp
  induction r with
  | nil => simp [isArray]
  | cons kv rest ih =>
    obtain ⟨k, v⟩ := kv
    simp only [List.map_cons, List.lookup_cons]
    by_cases hk : (key == k) = true
    · simp only [hk]
      cases v <;> simp [FieldValue.toJS, isArray]
    · simp only [Bool.not_eq_true] at hk
      simp only [hk]
      exact ih

/-- A sequence of 1 to 10,000 elements passes both size guards. -/
theorem validate_ok (items : List JSValue) (h1 : 1 ≤ items.length)
    (h2 : items.length ≤ 10000) : validate (.arr items) = .ok () := by
  show (if items.length = 0 then _ else if items.length > 10000 then _ else _) = _
  rw [if_neg (by omega), if_neg (by omega)]

/-- A sequence of more than 10,000 elements fails the second size guard. -/
theorem validate_too_large (items : List JSValue) (h : items.length > 10000) :
    validate (.arr items) = .error (newError "Maximum 10,000 customers allowed per batch.") := by
  show (if items.length = 0 then _ else if items.length > 10000 then _ else _) = _
  rw [if_neg (by omega), if_pos h]

/-- A run whose parsing step throws ends in the fixed parse message. -/
theorem handleSubmit_parse_error (post : Transport) (err : JSError)
    (selectedModel : Option String) (s : State) :
    handleSubmit post (.error err) selectedModel s =
      { state := { results := .null, loading := false,
                   error := .str "Invalid JSON format. Please check your syntax." },
        calls := [], requests := [] } := by
  simp [handleSubmit, parseCustomers, errorShown, newError, optChain, jsOr, truthy]

/-- A run whose normalized sequence fails a size guard shows the guard's message
and calls nothing. -/
theorem handleSubmit_invalid (post : Transport) (parsed customers : JSValue) (msg : String)
    (selectedModel : Option String) (s : State) (hm : msg ≠ "")
    (hn : normalize parsed = .ok customers) (hv : validate customers = .error (newError msg)) :
    handleSubmit post (.ok parsed) selectedModel s =
      { state := { results := .null, loading := false, error := .str msg },
        calls := [], requests := [] } := by
  simp [handleSubmit, parseCustomers, hn, hv, errorShown, newError, optChain, jsOr, truthy, hm]

/-- A run whose normalized sequence passes the guards makes one call, sending
one request. -/
theorem handleSubmit_valid (post : Transport) (parsed customers : JSValue)
    (selectedModel : Option String) (s : State)
    (hn : normalize parsed = .ok customers) (hv : validate customers = .ok ()) :
    (handleSubmit post (.ok parsed) selectedModel s).calls
        = [{ customers := customers, modelVersion := selectedModel }] ∧
    (handleSubmit post (.ok parsed) selectedModel s).requests
        = [predictBatchRequest customers selectedModel] := by
  unfold handleSubmit parseCustomers
  simp only [hn, hv, predictBatch]
  cases post (predictBatchRequest customers selectedModel) <;> simp

/-- The final state of a run, read off the outcome of the `try` body: the
prediction goes to `results`, a caught exception to `error`; `loading` ends
false either way. -/
theorem handleSubmit_state (post : Transport) (parseOutcome : Except JSError JSValue)
    (selectedModel : Option String) (s : State) :
    (handleSubmit post parseOutcome selectedModel s).state =
      match tryBlock post parseOutcome selectedModel with
      | .ok prediction => { results := prediction, loading := false, error := .null }
      | .error err => { results := .null, loading := false, error := errorShown err } := by
  unfold handleSubmit tryBlock
  cases h1 : parseCustomers parseOutcome with
  | error err => simp
  | ok customers =>
    simp only []
    cases h2 : validate customers with
    | error err => simp
    | ok u =>
      simp only [predictBatch]
      cases h3 : post (predictBatchRequest customers selectedModel) <;> simp

/-- The value shown for a caught exception is never empty: the last operand of
the `||` chain is a non-empty string. -/
theorem truthy_errorShown (err : JSError) : truthy (errorShown err) = true := by
  unfold errorShown
  generalize jsOr (optChain (optChain err.response "data") "detail") err.message = v
  unfold jsOr
  by_cases h : truthy v = true
  · rw [if_pos h]; exact h
  · rw [if_neg h]; rfl

/-- The churn count never exceeds the number of rows. -/
theorem churnCount_le_length (r : BatchResult) : churnCount r ≤ r.predictions.length :=
  List.length_filter_le _ _

/-- A call of `predictBatch` sends exactly one request, whatever the answer. -/
theorem predictBatch_requests (post : Transport) (customers : JSValue)
    (modelVersion : Option String) :
    (predictBatch post customers modelVersion).2
      = [predictBatchRequest customers modelVersion] := by
  cases h : post (predictBatchRequest customers modelVersion) <;> simp [predictBatch, h]

/-- Rounding to the nearest integer moves a number by at most one half. -/
theorem roundHalfEven_error (q : ℚ) : |(roundHalfEven q : ℚ) - q| ≤ 1 / 2 := by
  have h1 := Int.floor_le q
  have h2 := Int.lt_floor_add_one q
  unfold roundHalfEven
  rw [abs_le]
  split_ifs with a b c
  · constructor <;> linarith
  · push_cast; constructor <;> linarith
  · constructor <;> linarith
  · push_cast; constructor <;> linarith

/-- An integer rounds to itself. -/
theorem roundHalfEven_intCast (m : ℤ) : roundHalfEven (m : ℚ) = m := by
  unfold roundHalfEven
  simp

/-- The relative error of one rounding is at most `2 ^ (-53)`. -/
theorem toDouble_error (q : ℚ) (hq : 0 < q) : |toDouble q - q| ≤ q / 2 ^ 53 := by
  unfold toDouble
  rw [if_neg hq.ne', abs_of_pos hq]
  set e := Int.log 2 q with he
  have hpos : (0 : ℚ) < 2 ^ (e - 52) := by positivity
  have hle : (2 : ℚ) ^ e ≤ q := by
    have := Int.zpow_log_le_self (b := 2) (r := q) (by norm_num) hq
    simpa using this
  have hr := roundHalfEven_error (q / 2 ^ (e - 52))
  have heq : (roundHalfEven (q / 2 ^ (e - 52)) : ℚ) * 2 ^ (e - 52) - q
      = ((roundHalfEven (q / 2 ^ (e - 52)) : ℚ) - q / 2 ^ (e - 52)) * 2 ^ (e - 52) := by
    field_simp
  rw [heq, abs_mul, abs_of_pos hpos]
  have h53 : (2 : ℚ) ^ (e - 52) = 2 ^ e / 2 ^ 52 := by
    rw [zpow_sub₀ (by norm_num)]; norm_num
  calc |(roundHalfEven (q / 2 ^ (e - 52)) : ℚ) - q / 2 ^ (e - 52)| * 2 ^ (e - 52)
      ≤ 1 / 2 * 2 ^ (e - 52) := by gcongr
    _ = 2 ^ e / 2 ^ 53 := by rw [h53]; ring
    _ ≤ q / 2 ^ 53 := by gcongr

/-- Zero rounds to zero. -/
theorem toDouble_zero : toDouble 0 = 0 := by
  unfold toDouble
  rw [if_pos rfl]

/-- A number with a 53-bit significand is a double: it rounds to itself. -/
theorem toDouble_exact (m k : ℤ) (h1 : 2 ^ 52 ≤ m) (h2 : m < 2 ^ 53) :
    toDouble (m * 2 ^ k) = m * 2 ^ k := by
  have hm : (0 : ℚ) < m := by
    have : (0 : ℤ) < m := lt_of_lt_of_le (by norm_num) h1
    exact_mod_cast this
  have hk : (0 : ℚ) < 2 ^ k := by positivity
  have hq : (0 : ℚ) < m * 2 ^ k := mul_pos hm hk
  have h1q : (2 : ℚ) ^ (52 : ℤ) ≤ m := by
    have : ((2 ^ 52 : ℤ) : ℚ) ≤ m := by exact_mod_cast h1
    norm_num at this ⊢
    exact this
  have h2q : (m : ℚ) < 2 ^ (53 : ℤ) := by
    have : (m : ℚ) < ((2 ^ 53 : ℤ) : ℚ) := by exact_mod_cast h2
    norm_num at this ⊢
    exact this
  have hlog : Int.log 2 (m * 2 ^ k : ℚ) = k + 52 := by
    apply le_antisymm
    · have : Int.log 2 (m * 2 ^ k : ℚ) < k + 53 := by
        rw [← Int.lt_zpow_iff_log_lt (by norm_num) hq]
        rw [show (k + 53 : ℤ) = 53 + k by ring, zpow_add₀ (by norm_num)]
        push_cast
        exact mul_lt_mul_of_pos_right h2q hk
      omega
    · rw [← Int.zpow_le_iff_le_log (by norm_num) hq]
      rw [show (k + 52 : ℤ) = 52 + k by ring, zpow_add₀ (by norm_num)]
      push_cast
      exact mul_le_mul_of_nonneg_right h1q hk.le
  unfold toDouble
  rw [if_neg hq.ne', abs_of_pos hq, hlog]
  rw [show k + 52 - 52 = k by ring]
  rw [mul_div_assoc, div_self hk.ne', mul_one, roundHalfEven_intCast]

/-- The error of the quotient followed by the product with 100: two roundings. -/
theorem rate_error (c : ℕ) (t : ℤ) (hc : 0 < c) (ht : 0 < t) :
    |toDouble (toDouble ((c : ℚ) / t) * 100) - (c : ℚ) / t * 100|
      ≤ (c : ℚ) / t * 100 * (2 / 2 ^ 53 + 1 / 2 ^ 106) := by
  have hcq : (0 : ℚ) < c := by exact_mod_cast hc
  have htq : (0 : ℚ) < t := by exact_mod_cast ht
  have hy : (0 : ℚ) < (c : ℚ) / t := div_pos hcq htq
  set y := (c : ℚ) / t with hydef
  have ha := toDouble_error y hy
  rw [abs_le] at ha
  have hapos : 0 < toDouble y := by
    have : y / 2 ^ 53 < y := by
      rw [div_lt_iff₀ (by positivity)]
      nlinarith
    linarith [ha.1]
  set a := toDouble y with hadef
  have hb := toDouble_error (a * 100) (by positivity)
  rw [abs_le] at hb
  rw [abs_le]
  constructor
  · nlinarith [ha.1, ha.2, hb.1, hb.2]
  · nlinarith [ha.1, ha.2, hb.1, hb.2]

/-- A number within two roundings of the exact percentage of `c` in `t`, for
`c` below `2 ^ 32`, is printed by `toFixed(1)` as a multiple of one tenth
nearest to the exact percentage. -/
theorem tenths_near (c : ℕ) (t : ℤ) (ht : 0 < t) (hc : c < 2 ^ 32) (x : ℚ)
    (hx : |x - (c : ℚ) / t * 100| ≤ (c : ℚ) / t * 100 * (2 / 2 ^ 53 + 1 / 2 ^ 106)) :
    0 ≤ ⌊x * 10 + 1 / 2⌋ ∧ |(⌊x * 10 + 1 / 2⌋ : ℚ) / 10 - (c : ℚ) / t * 100| ≤ 1 / 20 := by
  have htq : (0 : ℚ) < t := by exact_mod_cast ht
  have hc0 : (0 : ℚ) ≤ c := by exact_mod_cast Nat.zero_le c
  have hcq : (c : ℚ) ≤ 2 ^ 32 - 1 := by
    have : c + 1 ≤ 2 ^ 32 := hc
    have h2 : ((c + 1 : ℕ) : ℚ) ≤ ((2 ^ 32 : ℕ) : ℚ) := by exact_mod_cast this
    push_cast at h2
    linarith
  have hdiv : (c : ℚ) / t * t = c := div_mul_cancel₀ _ htq.ne'
  set n := ⌊x * 10 + 1 / 2⌋ with hn
  have hn1 : (n : ℚ) ≤ x * 10 + 1 / 2 := Int.floor_le _
  have hn2 : x * 10 + 1 / 2 < n + 1 := Int.lt_floor_add_one _
  rw [abs_le] at hx
  -- the product form of the error bound
  have hP1 : x * t - 100 * c ≤ 100 * c * (2 / 2 ^ 53 + 1 / 2 ^ 106) := by
    have := mul_le_mul_of_nonneg_right hx.2 htq.le
    nlinarith [hdiv]
  have hP2 : -(100 * c * (2 / 2 ^ 53 + 1 / 2 ^ 106)) ≤ x * t - 100 * c := by
    have := mul_le_mul_of_nonneg_right hx.1 htq.le
    nlinarith [hdiv]
  have hsmall : 2000 * (c : ℚ) * (2 / 2 ^ 53 + 1 / 2 ^ 106) < 1 := by
    have : 2000 * (c : ℚ) * (2 / 2 ^ 53 + 1 / 2 ^ 106)
        ≤ 2000 * (2 ^ 32 - 1) * (2 / 2 ^ 53 + 1 / 2 ^ 106) := by gcongr
    have h2 : (2000 : ℚ) * (2 ^ 32 - 1) * (2 / 2 ^ 53 + 1 / 2 ^ 106) < 1 := by norm_num
    linarith
  have hA : 2 * (t : ℚ) * n < 2000 * c + 1 + t := by
    have := mul_le_mul_of_nonneg_right hn1 htq.le
    nlinarith
  have hB : 2000 * (c : ℚ) - 1 + t < 2 * t * n + 2 * t := by
    have := mul_lt_mul_of_pos_right hn2 htq
    nlinarith
  have hAz : 2 * t * n ≤ 2000 * (c : ℤ) + t := by
    have : 2 * t * n < 2000 * (c : ℤ) + 1 + t := by exact_mod_cast hA
    omega
  have hBz : 2000 * (c : ℤ) + t ≤ 2 * t * n + 2 * t := by
    have : 2000 * (c : ℤ) - 1 + t < 2 * t * n + 2 * t := by exact_mod_cast hB
    omega
  have hAq : 2 * (t : ℚ) * n ≤ 2000 * c + t := by exact_mod_cast hAz
  have hBq : 2000 * (c : ℚ) + t ≤ 2 * t * n + 2 * t := by exact_mod_cast hBz
  constructor
  · by_contra hneg
    push_neg at hneg
    have h1 : n ≤ -1 := by omega
    have hcz : (0 : ℤ) ≤ c := Int.natCast_nonneg c
    nlinarith
  · have hval : (n : ℚ) / 10 - (c : ℚ) / t * 100 = (2 * t * n - 2000 * c) / (20 * t) := by
      field_simp
      ring
    rw [hval, abs_le]
    constructor
    · rw [le_div_iff₀ (by positivity)]
      nlinarith
    · rw [div_le_iff₀ (by positivity)]
      nlinarith

/-- A number closer than one half to an integer rounds to that integer. -/
theorem roundHalfEven_eq_of_near (q : ℚ) (m : ℤ) (h : |q - m| < 1 / 2) :
    roundHalfEven q = m := by
  rw [abs_lt] at h
  unfold roundHalfEven
  rcases le_or_lt (m : ℚ) q with hle | hlt
  · have hf : ⌊q⌋ = m := by
      rw [Int.floor_eq_iff]
      constructor <;> linarith
    rw [hf, if_pos (by linarith)]
  · have hf : ⌊q⌋ = m - 1 := by
      rw [Int.floor_eq_iff]
      push_cast
      constructor <;> linarith
    rw [hf]
    push_cast
    rw [if_neg (by linarith), if_pos (by linarith)]
    ring

/-- A number whose quotient by `2 ^ k` lies between `2 ^ 52` and `2 ^ 53`, closer
than one half to the integer `m`, rounds to the double `m * 2 ^ k`. -/
theorem toDouble_eq_of_near (q : ℚ) (m k : ℤ) (hlo : 2 ^ 52 ≤ q / 2 ^ k)
    (hhi : q / 2 ^ k < 2 ^ 53) (hnear : |q / 2 ^ k - m| < 1 / 2) :
    toDouble q = m * 2 ^ k := by
  have hk : (0 : ℚ) < 2 ^ k := by positivity
  have hq : 0 < q := by
    have : 0 < q / 2 ^ k := lt_of_lt_of_le (by norm_num) hlo
    have h2 := mul_pos this hk
    rwa [div_mul_cancel₀ _ hk.ne'] at h2
  have hqlo : (2 : ℚ) ^ 52 * 2 ^ k ≤ q := by
    have := mul_le_mul_of_nonneg_right hlo hk.le
    rwa [div_mul_cancel₀ _ hk.ne'] at this
  have hqhi : q < 2 ^ 53 * 2 ^ k := by
    have := mul_lt_mul_of_pos_right hhi hk
    rwa [div_mul_cancel₀ _ hk.ne'] at this
  have hlog : Int.log 2 q = k + 52 := by
    apply le_antisymm
    · have : Int.log 2 q < k + 53 := by
        rw [← Int.lt_zpow_iff_log_lt (by norm_num) hq]
        rw [show (k + 53 : ℤ) = 53 + k by ring, zpow_add₀ (by norm_num)]
        push_cast
        norm_num at hqhi ⊢
        exact hqhi
      omega
    · rw [← Int.zpow_le_iff_le_log (by norm_num) hq]
      rw [show (k + 52 : ℤ) = 52 + k by ring, zpow_add₀ (by norm_num)]
      push_cast
      norm_num at hqlo ⊢
      exact hqlo
  unfold toDouble
  rw [if_neg hq.ne', abs_of_pos hq, hlog]
  rw [show k + 52 - 52 = k by ring, roundHalfEven_eq_of_near _ m hnear]

/-- The constants written for the literals `0.7`, `0.4`, `0.85` and `0.2` are the
doubles their decimal values round to. -/
theorem literals_rounded :
    toDouble (7 / 10) = double_0_7 ∧ toDouble (4 / 10) = double_0_4 ∧
    toDouble (85 / 100) = double_0_85 ∧ toDouble (2 / 10) = double_0_2 := by
  refine ⟨?_, ?_, ?_, ?_⟩
  · rw [toDouble_eq_of_near (7 / 10) 6305039478318694 (-53) (by norm_num) (by norm_num)
      (by rw [abs_lt]; constructor <;> norm_num)]
    unfold double_0_7; norm_num
  · rw [toDouble_eq_of_near (4 / 10) 7205759403792794 (-54) (by norm_num) (by norm_num)
      (by rw [abs_lt]; constructor <;> norm_num)]
    unfold double_0_4; norm_num
  · rw [toDouble_eq_of_near (85 / 100) 7656119366529843 (-53) (by norm_num) (by norm_num)
      (by rw [abs_lt]; constructor <;> norm_num)]
    unfold double_0_85; norm_num
  · rw [toDouble_eq_of_near (2 / 10) 7205759403792794 (-55) (by norm_num) (by norm_num)
      (by rw [abs_lt]; constructor <;> norm_num)]
    unfold double_0_2; norm_num

/-- At an exact tie the neighbour printed depends on the two double roundings:
23 churners of 80 are 28.75 percent exactly and print as `28.7`, the lower of
the two nearest one-decimal values, where `toFixed(1)` of the exact value would
print `28.8`. -/
theorem churnRateShown_tie :
    (churnCount tieResult : ℚ) / tieResult.total_customers * 100 = 28.75 ∧
    churnRateShown tieResult = "28.7" ∧
    toFixed1 ((churnCount tieResult : ℚ) / tieResult.total_customers * 100) = "28.8" := by
  have hcnt : churnCount tieResult = 23 := by
    simp [churnCount, tieResult, strictEqualsOne, List.filter_replicate]
  have ht : tieResult.total_customers = 80 := rfl
  have hq : toDouble ((23 : ℚ) / 80) = 5179139571476070 * 2 ^ (-54 : ℤ) :=
    toDouble_eq_of_near _ 5179139571476070 (-54) (by norm_num) (by norm_num)
      (by rw [abs_lt]; constructor <;> norm_num)
  have hp : toDouble (5179139571476070 * 2 ^ (-54 : ℤ) * 100)
      = 8092405580431359 * 2 ^ (-48 : ℤ) :=
    toDouble_eq_of_near _ 8092405580431359 (-48) (by norm_num) (by norm_num)
      (by rw [abs_lt]; constructor <;> norm_num)
  refine ⟨?_, ?_, ?_⟩
  · rw [hcnt, ht]; norm_num
  · unfold churnRateShown toFixed1 numMultiply numDivide
    rw [hcnt, ht]
    have hfl : ⌊(8092405580431359 * 2 ^ (-48 : ℤ) : ℚ) * 10 + 1 / 2⌋ = 287 := by
      rw [Int.floor_eq_iff]; norm_num
    rw [if_neg (show ¬ ((80 : ℤ) = 0) by norm_num)]
    push_cast
    rw [hq, hp, if_neg (show ¬ ((8092405580431359 * 2 ^ (-48 : ℤ) : ℚ) < 0) by norm_num), hfl]
    decide
  · unfold toFixed1
    rw [hcnt, ht]
    have hfl : ⌊((23 : ℕ) : ℚ) / ((80 : ℤ) : ℚ) * 100 * 10 + 1 / 2⌋ = 288 := by
      rw [Int.floor_eq_iff]; norm_num
    rw [if_neg (by norm_num), hfl]
    decide

/-- A number that is an integer multiple of the spacing `2 ^ (e - 52)` at its
binary exponent `e` is a double: it rounds to itself. -/
theorem toDouble_of_int_quotient (q : ℚ) (z : ℤ) (hq : q ≠ 0)
    (hz : q / 2 ^ (Int.log 2 |q| - 52) = z) : toDouble q = q := by
  have hpos : (0 : ℚ) < 2 ^ (Int.log 2 |q| - 52) := by positivity
  unfold toDouble
  rw [if_neg hq, hz, roundHalfEven_intCast, ← hz]
  exact div_mul_cancel₀ _ hpos.ne'

/-- An integer of magnitude at most `2 ^ 53` is a double: it rounds to itself. -/
theorem toDouble_intCast (n : ℤ) (h : |n| ≤ 2 ^ 53) : toDouble (n : ℚ) = n := by
  by_cases hn : n = 0
  · rw [hn]; simp [toDouble_zero]
  have hnq : (n : ℚ) ≠ 0 := by exact_mod_cast hn
  have habs1 : (1 : ℚ) ≤ |(n : ℚ)| := by
    have : (1 : ℤ) ≤ |n| := Int.one_le_abs hn
    exact_mod_cast this
  have habs2 : |(n : ℚ)| ≤ 2 ^ 53 := by
    have : ((|n| : ℤ) : ℚ) ≤ ((2 ^ 53 : ℤ) : ℚ) := by exact_mod_cast h
    push_cast at this
    exact this
  have hapos : (0 : ℚ) < |(n : ℚ)| := by linarith
  have he0 : 0 ≤ Int.log 2 |(n : ℚ)| := by
    rw [← Int.zpow_le_iff_le_log (by norm_num) hapos]
    simpa using habs1
  have he53 : Int.log 2 |(n : ℚ)| < 54 := by
    rw [← Int.lt_zpow_iff_log_lt (by norm_num) hapos]
    have : ((2 : ℕ) : ℚ) ^ (54 : ℤ) = 2 ^ 54 := by norm_num
    rw [this]
    linarith [show (2 : ℚ) ^ 53 < 2 ^ 54 by norm_num]
  rcases lt_or_eq_of_le (show Int.log 2 |(n : ℚ)| ≤ 53 by omega) with hlt | heq
  · obtain ⟨k, hk⟩ : ∃ k : ℕ, Int.log 2 |(n : ℚ)| - 52 = -(k : ℤ) :=
      ⟨(52 - Int.log 2 |(n : ℚ)|).toNat, by omega⟩
    apply toDouble_of_int_quotient _ (n * 2 ^ k) hnq
    rw [hk, zpow_neg, zpow_natCast]
    push_cast
    rw [div_inv_eq_mul]
  · have hlow : (2 : ℚ) ^ (53 : ℤ) ≤ |(n : ℚ)| := by
      have := Int.zpow_log_le_self (b := 2) (r := |(n : ℚ)|) (by norm_num) hapos
      rw [heq] at this
      simpa using this
    have habs : |(n : ℚ)| = 2 ^ 53 := le_antisymm habs2 (by norm_num at hlow ⊢; exact hlow)
    have hval : (n : ℚ) = 2 ^ 53 ∨ (n : ℚ) = -2 ^ 53 := by
      rcases abs_choice (n : ℚ) with h1 | h1
      · left; rw [← h1]; exact habs
      · right; rw [h1] at habs; linarith
    rcases hval with h1 | h1
    · apply toDouble_of_int_quotient _ (2 ^ 52) hnq
      rw [heq, h1]; norm_num
    · apply toDouble_of_int_quotient _ (-2 ^ 52) hnq
      rw [heq, h1]; norm_num

/-- The subtraction of line 6 is exact when the difference is an integer of
magnitude at most `2 ^ 53`. -/
theorem noChurnCount_exact (r : BatchResult)
    (h : |r.total_customers - (churnCount r : ℤ)| ≤ 2 ^ 53) :
    noChurnCount r = r.total_customers - churnCount r := by
  unfold noChurnCount numSubtract
  have := toDouble_intCast (r.total_customers - (churnCount r : ℤ)) h
  push_cast at this
  exact this

/-- The odd integer `2 ^ 53 + 1` lies halfway between two doubles and rounds to
the even one, `2 ^ 53`. -/
theorem toDouble_tie_at_2_pow_53 : toDouble 9007199254740993 = 9007199254740992 := by
  have hq : (0 : ℚ) < 9007199254740993 := by norm_num
  have hlog : Int.log 2 |(9007199254740993 : ℚ)| = 53 := by
    rw [abs_of_pos hq]
    apply le_antisymm
    · have : Int.log 2 (9007199254740993 : ℚ) < 54 := by
        rw [← Int.lt_zpow_iff_log_lt (by norm_num) hq]
        norm_num
      omega
    · rw [← Int.zpow_le_iff_le_log (by norm_num) hq]
      norm_num
  have hfl : ⌊(9007199254740993 : ℚ) / 2⌋ = 4503599627370496 := by
    rw [Int.floor_eq_iff]; norm_num
  unfold toDouble
  rw [if_neg hq.ne', hlog]
  have hulp : (2 : ℚ) ^ ((53 : ℤ) - 52) = 2 := by norm_num
  rw [hulp]
  unfold roundHalfEven
  rw [hfl]
  norm_num

/-! ## The claims -/

/-- C1: the risk level of a row is High exactly when the probability exceeds
0.7, Medium exactly when it exceeds 0.4 without exceeding 0.7, and Low exactly
when it does not exceed 0.4; the probability 0.7 itself gives Medium and 0.4
itself gives Low. -/
theorem riskLevel_thresholds (p : ℚ) :
    (riskLevel p = "High" ↔ p > double_0_7) ∧
    (riskLevel p = "Medium" ↔ double_0_4 < p ∧ p ≤ double_0_7) ∧
    (riskLevel p = "Low" ↔ p ≤ double_0_4) ∧
    riskLevel double_0_7 = "Medium" ∧ riskLevel double_0_4 = "Low" := by
  have h47 := double_0_4_lt_double_0_7
  refine ⟨?_, ?_, ?_, ?_, ?_⟩
  · unfold riskLevel
    split_ifs with h1 h2 <;> simp [h1]
  · unfold riskLevel
    split_ifs with h1 h2
    · simp; intro _; exact h1
    · simp; exact ⟨h2, le_of_not_lt h1⟩
    · simp; intro h; exact absurd h h2
  · unfold riskLevel
    split_ifs with h1 h2
    · simp; exact lt_trans h47 h1
    · simp; exact h2
    · simp; exact le_of_not_lt h2
  · unfold riskLevel
    rw [if_neg (lt_irrefl _), if_pos h47]
  · unfold riskLevel
    rw [if_neg (not_lt.mpr (le_of_lt h47)), if_neg (lt_irrefl _)]

/-- C2: shape-invariance of the normalization.  For every list `rs` the
wrapped input with `customers` equal to `rs` and the bare array `rs` normalize
to the same sequence `rs`; for every customer record `r` the single object `r`,
the bare array holding `r` and the wrapped input holding that array normalize
to the same one-element sequence, whatever fields `r` carries. -/
theorem normalize_shape_invariant (rs : List JSValue) (r : CustomerRecord) :
    normalize (.obj [("customers", .arr rs)]) = normalize (.arr rs) ∧
    normalize (.arr rs) = .ok (.arr rs) ∧
    normalize r.toJS = normalize (.arr [r.toJS]) ∧
    normalize r.toJS = normalize (.obj [("customers", .arr [r.toJS])]) ∧
    normalize r.toJS = .ok (.arr [r.toJS]) := by
  have hw : ∀ l : List JSValue, normalize (.obj [("customers", .arr l)]) = .ok (.arr l) :=
    fun l => normalize_obj_of_customers _ l (by simp [List.lookup])
  have hr : normalize r.toJS = .ok (.arr [r.toJS]) :=
    normalize_obj_of_not_array _ (isArray_ownProp_record r "customers")
  refine ⟨?_, normalize_arr rs, ?_, ?_, hr⟩
  · rw [hw, normalize_arr]
  · rw [hr, normalize_arr]
  · rw [hr, hw]

/-- C3: a parsed object whose `customers` property is an array normalizes to
exactly that array, elements and order unchanged; the pre-loaded `SAMPLE_JSON`
yields its six records in order. -/
theorem normalize_wrapped (fields : List (String × JSValue)) (items : List JSValue)
    (h : fields.lookup "customers" = some (.arr items)) :
    normalize (.obj fields) = .ok (.arr items) ∧
    normalize SAMPLE_JSON = .ok (.arr [sampleCustomer1, sampleCustomer2, sampleCustomer3,
      sampleCustomer4, sampleCustomer5, sampleCustomer6]) ∧
    [sampleCustomer1, sampleCustomer2, sampleCustomer3,
      sampleCustomer4, sampleCustomer5, sampleCustomer6].length = 6 := by
  refine ⟨normalize_obj_of_customers fields items h, ?_, rfl⟩
  exact normalize_obj_of_customers _ _ (by simp [List.lookup])

/-- Witness of C3: an object with a second property beside `customers`, whose
two-element array comes back as it is. -/
theorem normalize_wrapped_witness :
    normalize (.obj [("page", .num 1), ("customers", .arr [.str "a", .str "b"])])
      = .ok (.arr [.str "a", .str "b"]) :=
  (normalize_wrapped [("page", .num 1), ("customers", .arr [.str "a", .str "b"])]
    [.str "a", .str "b"] (by simp [List.lookup])).1

/-- C4 (the code at the failing inputs): a parsed number, string or boolean is
not rejected.  It is wrapped into a one-element array, passes the size guards
and is sent with one call to `apiService.predictBatch`, whatever the service
then answers.  Only `null` ends in an error without a call, through the
TypeError of the property read, reported as a parse error. -/
theorem handleSubmit_scalar (post : Transport) (selectedModel : Option String) (s : State)
    (q : ℚ) (txt : String) (b : Bool) :
    (handleSubmit post (.ok (.num q)) selectedModel s).calls
        = [{ customers := .arr [.num q], modelVersion := selectedModel }] ∧
    (handleSubmit post (.ok (.str txt)) selectedModel s).calls
        = [{ customers := .arr [.str txt], modelVersion := selectedModel }] ∧
    (handleSubmit post (.ok (.bool b)) selectedModel s).calls
        = [{ customers := .arr [.bool b], modelVersion := selectedModel }] ∧
    (handleSubmit post (.ok (.num q)) selectedModel s).requests
        = [{ url := "/predict/batch?model_version=" ++ selectedModel.getD "v1_lr",
             body := .obj [("customers", .arr [.num q])] }] ∧
    handleSubmit post (.ok .null) selectedModel s =
      { state := { results := .null, loading := false,
                   error := .str "Invalid JSON format. Please check your syntax." },
        calls := [], requests := [] } := by
  have hv : ∀ v : JSValue, validate (.arr [v]) = .ok () :=
    fun v => validate_ok [v] (by simp) (by simp)
  refine ⟨?_, ?_, ?_, ?_, ?_⟩
  · exact (handleSubmit_valid post (.num q) _ selectedModel s rfl (hv _)).1
  · exact (handleSubmit_valid post (.str txt) _ selectedModel s rfl (hv _)).1
  · exact (handleSubmit_valid post (.bool b) _ selectedModel s rfl (hv _)).1
  · exact (handleSubmit_valid post (.num q) _ selectedModel s rfl (hv _)).2
  · simp [handleSubmit, parseCustomers, normalize, getProp, errorShown, newError, optChain,
      jsOr, truthy]

/-- C5: the validation of a normalized sequence fails with the empty-batch
message exactly when the length is 0 and with the batch-too-large message
exactly when the length exceeds 10,000, and passes exactly for lengths 1 to
10,000 (10,000 passes, 10,001 fails); in both failing cases the run shows the
message, leaves the results null and makes no call to `predictBatch`. -/
theorem validate_size_guards (items : List JSValue) :
    (validate (.arr items) = .error (newError "Please provide at least one customer object.")
      ↔ items.length = 0) ∧
    (validate (.arr items) = .error (newError "Maximum 10,000 customers allowed per batch.")
      ↔ items.length > 10000) ∧
    (validate (.arr items) = .ok () ↔ 1 ≤ items.length ∧ items.length ≤ 10000) ∧
    validate (.arr (List.replicate 10000 .null)) = .ok () ∧
    validate (.arr (List.replicate 10001 .null))
      = .error (newError "Maximum 10,000 customers allowed per batch.") ∧
    (∀ (post : Transport) (parsed : JSValue) (selectedModel : Option String) (s : State),
      normalize parsed = .ok (.arr items) →
      (items.length = 0 →
        handleSubmit post (.ok parsed) selectedModel s =
          { state := { results := .null, loading := false,
                       error := .str "Please provide at least one customer object." },
            calls := [], requests := [] }) ∧
      (items.length > 10000 →
        handleSubmit post (.ok parsed) selectedModel s =
          { state := { results := .null, loading := false,
                       error := .str "Maximum 10,000 customers allowed per batch." },
            calls := [], requests := [] })) := by
  have hempty : items.length = 0 →
      validate (.arr items) = .error (newError "Please provide at least one customer object.") := by
    intro h
    show (if items.length = 0 then _ else if items.length > 10000 then _ else _) = _
    rw [if_pos h]
  have hlarge := validate_too_large items
  have hcases : items.length = 0 ∨ items.length > 10000 ∨
      (1 ≤ items.length ∧ items.length ≤ 10000) := by omega
  refine ⟨⟨?_, hempty⟩, ⟨?_, hlarge⟩, ⟨?_, fun h => validate_ok items h.1 h.2⟩, ?_, ?_, ?_⟩
  · intro h
    rcases hcases with h0 | hbig | hmid
    · exact h0
    · rw [hlarge hbig] at h; simp [newError] at h
    · rw [validate_ok items hmid.1 hmid.2] at h; simp at h
  · intro h
    rcases hcases with h0 | hbig | hmid
    · rw [hempty h0] at h; simp [newError] at h
    · exact hbig
    · rw [validate_ok items hmid.1 hmid.2] at h; simp at h
  · intro h
    rcases hcases with h0 | hbig | hmid
    · rw [hempty h0] at h; simp at h
    · rw [hlarge hbig] at h; simp at h
    · exact hmid
  · exact validate_ok _ (by rw [List.length_replicate]; omega)
      (by rw [List.length_replicate])
  · exact validate_too_large _ (by rw [List.length_replicate]; omega)
  · intro post parsed selectedModel s hn
    exact ⟨fun h => handleSubmit_invalid post parsed _ _ selectedModel s (by decide) hn (hempty h),
      fun h => handleSubmit_invalid post parsed _ _ selectedModel s (by decide) hn (hlarge h)⟩

/-- Witness of C5: the empty array `[]` typed into the box ends in the
empty-batch message with no call made. -/
theorem validate_size_guards_witness :
    handleSubmit (fun _ => .ok { data := .null }) (.ok (.arr [])) (some "v1_lr") initialState =
      { state := { results := .null, loading := false,
                   error := .str "Please provide at least one customer object." },
        calls := [], requests := [] } :=
  ((validate_size_guards []).2.2.2.2.2 (fun _ => .ok { data := .null }) (.arr [])
    (some "v1_lr") initialState (normalize_arr [])).1 rfl

/-- C6: when the normalized sequence has between 1 and 10,000 elements, the run
makes exactly one call to `apiService.predictBatch`, with the normalized
sequence as it is and the selected model identifier; that call sends exactly
one request, whose URL names that model and whose body holds the same sequence
under `customers`. -/
theorem handleSubmit_calls_once (post : Transport) (parsed : JSValue) (items : List JSValue)
    (selectedModel : String) (s : State) (hn : normalize parsed = .ok (.arr items))
    (h1 : 1 ≤ items.length) (h2 : items.length ≤ 10000) :
    (handleSubmit post (.ok parsed) (some selectedModel) s).calls
        = [{ customers := .arr items, modelVersion := some selectedModel }] ∧
    (handleSubmit post (.ok parsed) (some selectedModel) s).requests
        = [{ url := "/predict/batch?model_version=" ++ selectedModel,
             body := .obj [("customers", .arr items)] }] ∧
    ownProp (predictBatchRequest (.arr items) (some selectedModel)).body "customers"
        = .arr items := by
  have h := handleSubmit_valid post parsed (.arr items) (some selectedModel) s hn
    (validate_ok items h1 h2)
  refine ⟨h.1, h.2, ?_⟩
  simp [predictBatchRequest, ownProp, List.lookup]

/-- Witness of C6: the pre-loaded sample, submitted with model `v2_rf`. -/
theorem handleSubmit_calls_once_witness :
    (handleSubmit (fun _ => .ok { data := .null }) (.ok SAMPLE_JSON) (some "v2_rf")
        initialState).calls
      = [{ customers := .arr [sampleCustomer1, sampleCustomer2, sampleCustomer3,
            sampleCustomer4, sampleCustomer5, sampleCustomer6],
           modelVersion := some "v2_rf" }] :=
  (handleSubmit_calls_once (fun _ => .ok { data := .null }) SAMPLE_JSON
    [sampleCustomer1, sampleCustomer2, sampleCustomer3, sampleCustomer4, sampleCustomer5,
      sampleCustomer6] "v2_rf" initialState
    (normalize_obj_of_customers _ _ (by simp [List.lookup])) (by simp) (by simp)).1

/-- C7: whatever error `JSON.parse` throws, the run ends with the malformed-input
message as its error, the results null, the loading flag cleared, and no call
to `apiService.predictBatch` and no request sent. -/
theorem handleSubmit_malformed (post : Transport) (err : JSError)
    (selectedModel : Option String) (s : State) :
    (handleSubmit post (.error err) selectedModel s).state.error
        = .str "Invalid JSON format. Please check your syntax." ∧
    (handleSubmit post (.error err) selectedModel s).state.results = .null ∧
    (handleSubmit post (.error err) selectedModel s).state.loading = false ∧
    (handleSubmit post (.error err) selectedModel s).calls = [] ∧
    (handleSubmit post (.error err) selectedModel s).requests = [] := by
  rw [handleSubmit_parse_error]
  exact ⟨rfl, rfl, rfl, rfl, rfl⟩

/-- C8 (counterexample): two parse failures with different parser messages end
in the same reported error, so the report does not reflect the difference. -/
theorem parse_error_context_lost :
    (newError "Unexpected end of JSON input").message
        ≠ (newError "Unexpected token a in JSON at position 0").message ∧
    (handleSubmit (fun _ => .ok { data := .null })
        (.error (newError "Unexpected end of JSON input")) (some "v1_lr") initialState).state.error
      = (handleSubmit (fun _ => .ok { data := .null })
        (.error (newError "Unexpected token a in JSON at position 0")) (some "v1_lr")
        initialState).state.error := by
  constructor
  · simp [newError]
  · rw [handleSubmit_parse_error, handleSubmit_parse_error]

/-- C8 (amended): when parsing fails the reported error is the fixed text
`Invalid JSON format. Please check your syntax.`, and the whole run is the same
for any two parser errors: the parser's own message is discarded. -/
theorem parse_error_message_fixed (post : Transport) (err1 err2 : JSError)
    (selectedModel : Option String) (s : State) :
    (handleSubmit post (.error err1) selectedModel s).state.error
        = .str "Invalid JSON format. Please check your syntax." ∧
    handleSubmit post (.error err1) selectedModel s
        = handleSubmit post (.error err2) selectedModel s := by
  rw [handleSubmit_parse_error, handleSubmit_parse_error]
  exact ⟨rfl, rfl⟩

/-- C9: a parsed object with no array-valued `customers` property (absent, or
present with a value that is not an array) normalizes to the one-element
sequence holding exactly that object. -/
theorem normalize_single_object (fields : List (String × JSValue))
    (h : ∀ items : List JSValue, fields.lookup "customers" ≠ some (.arr items)) :
    normalize (.obj fields) = .ok (.arr [.obj fields]) := by
  apply normalize_obj_of_not_array
  show isArray ((fields.lookup "customers").getD .undefined) = false
  cases hl : fields.lookup "customers" with
  | none => rfl
  | some c =>
    cases c with
    | arr items => exact absurd hl (h items)
    | _ => rfl

/-- Witness of C9: an object whose `customers` property is a string, and one
without that property. -/
theorem normalize_single_object_witness :
    normalize (.obj [("Gender", .str "Male"), ("customers", .str "none")])
        = .ok (.arr [.obj [("Gender", .str "Male"), ("customers", .str "none")]]) ∧
    normalize (.obj [("Gender", .str "Male")]) = .ok (.arr [.obj [("Gender", .str "Male")]]) :=
  ⟨normalize_single_object _ (by simp [List.lookup]),
   normalize_single_object _ (by simp [List.lookup])⟩

/-- C10: a parsed array normalizes to itself, elements and order unchanged and
no element inspected; an array of a number, a string and `null` comes back as
it is. -/
theorem normalize_bare_array (items : List JSValue) :
    normalize (.arr items) = .ok (.arr items) ∧
    normalize (.arr [.num 5, .str "x", .null]) = .ok (.arr [.num 5, .str "x", .null]) :=
  ⟨normalize_arr items, normalize_arr _⟩

/-- C11 (counterexample): with the total `2 ^ 53 + 2`, which is a double, and
one flagged row the subtraction of line 6 rounds: the view shows churn 1 and
no-churn 9007199254740992, which do not add up to the total
9007199254740994. -/
theorem noChurnCount_rounds_at_huge_total :
    toDouble hugeTotalResult.total_customers = hugeTotalResult.total_customers ∧
    churnCount hugeTotalResult = 1 ∧
    noChurnCount hugeTotalResult = 9007199254740992 ∧
    (churnCount hugeTotalResult : ℚ) + noChurnCount hugeTotalResult
      ≠ hugeTotalResult.total_customers := by
  have hc : churnCount hugeTotalResult = 1 := by
    simp [churnCount, hugeTotalResult, oneRowResult, strictEqualsOne]
  have ht : hugeTotalResult.total_customers = 9007199254740994 := rfl
  have hn : noChurnCount hugeTotalResult = 9007199254740992 := by
    unfold noChurnCount numSubtract
    rw [hc, ht]
    norm_num
    exact toDouble_tie_at_2_pow_53
  refine ⟨?_, hc, hn, ?_⟩
  · rw [ht]
    have := toDouble_exact 4503599627370497 1 (by norm_num) (by norm_num)
    norm_num at this ⊢
    exact this
  · rw [hc, hn, ht]
    norm_num

/-- C11 (amended): whenever the difference `total_customers - churnCount` is an
integer a double holds exactly (magnitude at most `2 ^ 53`), the churn count
shown plus the no-churn count shown equals `total_customers`; that is so for
every result with a total from 0 to `2 ^ 53` and fewer than `2 ^ 32` rows, a
single-row one included. -/
theorem churnCount_add_noChurnCount (r : BatchResult) :
    (|r.total_customers - (churnCount r : ℤ)| ≤ 2 ^ 53 →
      (churnCount r : ℚ) + noChurnCount r = r.total_customers) ∧
    (0 ≤ r.total_customers → r.total_customers ≤ 2 ^ 53 → r.predictions.length < 2 ^ 32 →
      (churnCount r : ℚ) + noChurnCount r = r.total_customers) := by
  have hmain : |r.total_customers - (churnCount r : ℤ)| ≤ 2 ^ 53 →
      (churnCount r : ℚ) + noChurnCount r = r.total_customers := by
    intro h
    rw [noChurnCount_exact r h]
    ring
  refine ⟨hmain, ?_⟩
  intro h0 h1 hlen
  apply hmain
  have hc := churnCount_le_length r
  rw [abs_le]
  constructor <;> omega

/-- Witness of C11: the single-row result, churn 1 and no-churn 0 of total 1. -/
theorem churnCount_add_noChurnCount_witness :
    (churnCount oneRowResult : ℚ) + noChurnCount oneRowResult = oneRowResult.total_customers :=
  (churnCount_add_noChurnCount oneRowResult).2 (by decide) (by decide)
    (by simp [oneRowResult])

/-- C12: the churn count is the number of rows whose churn flag is the number
1, whatever their probabilities and labels: two results with the same sequence
of flags have the same count.  The two-row result with probabilities 0.85
(flag 1) and 0.2 (flag 0) and total 2 gives churn count 1, no-churn count 1 and
the risk levels High and Low. -/
theorem churnCount_counts_flags (r : BatchResult) :
    (∀ v : JSValue, strictEqualsOne v = true ↔ v = .num 1) ∧
    churnCount r
      = (r.predictions.map fun p => p.prediction.churn_prediction).countP strictEqualsOne ∧
    (∀ r2 : BatchResult,
      (r2.predictions.map fun p => p.prediction.churn_prediction)
        = (r.predictions.map fun p => p.prediction.churn_prediction) →
      churnCount r2 = churnCount r) ∧
    churnCount twoRowResult = 1 ∧ noChurnCount twoRowResult = 1 ∧
    riskLevels twoRowResult = ["High", "Low"] := by
  have hcount : ∀ r : BatchResult, churnCount r
      = (r.predictions.map fun p => p.prediction.churn_prediction).countP strictEqualsOne := by
    intro r
    unfold churnCount
    rw [List.countP_map, List.countP_eq_length_filter]
    rfl
  have hc : churnCount twoRowResult = 1 := by
    simp [churnCount, twoRowResult, strictEqualsOne]
  refine ⟨?_, hcount r, ?_, hc, ?_, ?_⟩
  · intro v
    cases v <;> simp [strictEqualsOne]
  · intro r2 h
    rw [hcount r2, hcount r, h]
  · rw [noChurnCount_exact twoRowResult (by rw [hc]; decide), hc]
    norm_num [twoRowResult]
  · have h1 : double_0_85 > double_0_7 := by unfold double_0_85 double_0_7; norm_num
    have h2 : ¬ double_0_2 > double_0_7 := by unfold double_0_2 double_0_7; norm_num
    have h3 : ¬ double_0_2 > double_0_4 := by unfold double_0_2 double_0_4; norm_num
    simp [riskLevels, twoRowResult, riskLevel, h1, h2, h3]

/-- Witness of C12: the two-row result with its probabilities and labels
exchanged for others keeps its churn count. -/
theorem churnCount_counts_flags_witness :
    churnCount
      { predictions :=
          [{ customer_index := 0,
             prediction := { churn_prediction := .num 1, churn_probability := 0,
                             churn_label := "No Churn" },
             input := .null },
           { customer_index := 1,
             prediction := { churn_prediction := .num 0, churn_probability := 1,
                             churn_label := "Churn" },
             input := .null }],
        total_customers := 2,
        page := .undefined, page_size := .undefined, total_pages := .undefined }
      = churnCount twoRowResult :=
  (churnCount_counts_flags twoRowResult).2.2.1 _ rfl

/-- C14 (counterexample): `predictBatch` called without a model identifier
names the fixed model `v1_lr` in the request it sends, exactly as a call that
supplies `v1_lr` does. -/
theorem predictBatch_default_model :
    (predictBatch (fun _ => .ok { data := .null }) (.arr [sampleCustomer1]) none).2
      = [{ url := "/predict/batch?model_version=v1_lr",
           body := .obj [("customers", .arr [sampleCustomer1])] }] ∧
    predictBatch (fun _ => .ok { data := .null }) (.arr [sampleCustomer1]) none
      = predictBatch (fun _ => .ok { data := .null }) (.arr [sampleCustomer1]) (some "v1_lr") := by
  constructor <;> rfl

/-- C14 (amended): the client has a default model.  A call without a model
identifier sends one request naming `v1_lr`; a call with a model identifier
sends one request naming the identifier supplied; and `handleSubmit` always
supplies the selected model. -/
theorem predictBatch_model_named (post : Transport) (customers : JSValue) (m : String) :
    (predictBatch post customers none).2
      = [{ url := "/predict/batch?model_version=v1_lr",
           body := .obj [("customers", customers)] }] ∧
    (predictBatch post customers (some m)).2
      = [{ url := "/predict/batch?model_version=" ++ m,
           body := .obj [("customers", customers)] }] ∧
    (∀ (parseOutcome : Except JSError JSValue) (s : State) (call : BatchCall),
      call ∈ (handleSubmit post parseOutcome (some m) s).calls → call.modelVersion = some m) := by
  have hreq := predictBatch_requests post customers
  refine ⟨?_, ?_, ?_⟩
  · rw [hreq]; rfl
  · rw [hreq]; rfl
  · intro parseOutcome s call hcall
    unfold handleSubmit at hcall
    cases h1 : parseCustomers parseOutcome with
    | error err => simp [h1] at hcall
    | ok cs =>
      cases h2 : validate cs with
      | error err => simp [h1, h2] at hcall
      | ok u =>
        simp only [h1, h2, predictBatch] at hcall
        cases h3 : post (predictBatchRequest cs (some m)) <;> simp [h3] at hcall <;>
          rw [hcall]

/-- Witness of C14: the call `handleSubmit` makes for the one-record array,
with model `v3_gb` selected, carries that model. -/
theorem predictBatch_model_named_witness :
    ({ customers := .arr [sampleCustomer1], modelVersion := some "v3_gb" } : BatchCall).modelVersion
      = some "v3_gb" :=
  (predictBatch_model_named (fun _ => .ok { data := .null }) .null "v3_gb").2.2
    (.ok (.arr [sampleCustomer1])) initialState
    { customers := .arr [sampleCustomer1], modelVersion := some "v3_gb" }
    (by
      rw [(handleSubmit_valid (fun _ => .ok { data := .null }) (.arr [sampleCustomer1])
        (.arr [sampleCustomer1]) (some "v3_gb") initialState (normalize_arr _)
        (validate_ok _ (by simp) (by simp))).1]
      exact List.mem_singleton.mpr rfl)

/-- C15: when the service answers, `predictBatch` returns `response.data` as it
is, having sent one request; in a run whose input passes the guards that very
body becomes `results`, with no error, and the run sends exactly that one
request (as it does when the service fails: nothing is retried). -/
theorem predictBatch_returns_body (post : Transport) (customers : JSValue)
    (modelVersion : Option String) (response : Response)
    (h : post (predictBatchRequest customers modelVersion) = .ok response) :
    predictBatch post customers modelVersion
      = (.ok response.data, [predictBatchRequest customers modelVersion]) ∧
    (∀ (parsed : JSValue) (s : State),
      normalize parsed = .ok customers → validate customers = .ok () →
      (handleSubmit post (.ok parsed) modelVersion s).state.results = response.data ∧
      (handleSubmit post (.ok parsed) modelVersion s).state.error = .null ∧
      (handleSubmit post (.ok parsed) modelVersion s).requests
        = [predictBatchRequest customers modelVersion]) ∧
    (∀ (other : Transport) (parsed : JSValue) (s : State),
      normalize parsed = .ok customers → validate customers = .ok () →
      (handleSubmit other (.ok parsed) modelVersion s).requests
        = [predictBatchRequest customers modelVersion]) := by
  have hp : predictBatch post customers modelVersion
      = (.ok response.data, [predictBatchRequest customers modelVersion]) := by
    unfold predictBatch
    simp only [h]
  refine ⟨hp, ?_, ?_⟩
  · intro parsed s hn hv
    have hs := handleSubmit_state post (.ok parsed) modelVersion s
    have ht : tryBlock post (.ok parsed) modelVersion = .ok response.data := by
      simp [tryBlock, parseCustomers, hn, hv, hp]
    rw [ht] at hs
    refine ⟨?_, ?_, (handleSubmit_valid post parsed customers modelVersion s hn hv).2⟩
    · rw [hs]
    · rw [hs]
  · intro other parsed s hn hv
    exact (handleSubmit_valid other parsed customers modelVersion s hn hv).2

/-- Witness of C15: a paginated body (page 1 of 3) reaches `results` with its
pagination properties as sent. -/
theorem predictBatch_returns_body_witness :
    (handleSubmit
        (fun _ => .ok { data := .obj [("predictions", .arr []), ("total_customers", .num 25000),
          ("page", .num 1), ("page_size", .num 10000), ("total_pages", .num 3)] })
        (.ok (.arr [sampleCustomer1])) (some "v1_lr") initialState).state.results
      = .obj [("predictions", .arr []), ("total_customers", .num 25000),
          ("page", .num 1), ("page_size", .num 10000), ("total_pages", .num 3)] :=
  ((predictBatch_returns_body
      (fun _ => .ok { data := .obj [("predictions", .arr []), ("total_customers", .num 25000),
          ("page", .num 1), ("page_size", .num 10000), ("total_pages", .num 3)] })
      (.arr [sampleCustomer1]) (some "v1_lr") _ rfl).2.1
    (.arr [sampleCustomer1]) initialState (normalize_arr _)
    (validate_ok _ (by simp) (by simp))).1

/-- C16: for every exception that reaches the outer `catch`, the error shown
is `err.response?.data?.detail` itself when that is truthy, else `err.message`
itself when that is truthy, else the text `An error occurred`; and `results`
stays null, no default result taking the error's place. -/
theorem errorShown_priority (post : Transport) (parseOutcome : Except JSError JSValue)
    (selectedModel : Option String) (s : State) (err : JSError)
    (h : tryBlock post parseOutcome selectedModel = .error err) :
    (handleSubmit post parseOutcome selectedModel s).state.error = errorShown err ∧
    (handleSubmit post parseOutcome selectedModel s).state.results = .null ∧
    (truthy (optChain (optChain err.response "data") "detail") = true →
      errorShown err = optChain (optChain err.response "data") "detail") ∧
    (truthy (optChain (optChain err.response "data") "detail") = false →
      truthy err.message = true → errorShown err = err.message) ∧
    (truthy (optChain (optChain err.response "data") "detail") = false →
      truthy err.message = false → errorShown err = .str "An error occurred") := by
  have hs := handleSubmit_state post parseOutcome selectedModel s
  rw [h] at hs
  refine ⟨by rw [hs], by rw [hs], ?_, ?_, ?_⟩
  · intro hd
    simp [errorShown, jsOr, hd]
  · intro hd hm
    simp [errorShown, jsOr, hd, hm]
  · intro hd hm
    simp [errorShown, jsOr, hd, hm]

/-- Witness of C16: the service answers 404 with a structured detail, which is
shown in place of the axios message. -/
theorem errorShown_priority_witness :
    (handleSubmit
        (fun _ => .error
          { response := .obj [("status", .num 404),
              ("data", .obj [("detail", .str "Model v9_xx not found")])],
            message := .str "Request failed with status code 404" })
        (.ok (.arr [sampleCustomer1])) (some "v9_xx") initialState).state.error
      = .str "Model v9_xx not found" :=
  ((errorShown_priority
      (fun _ => .error
        { response := .obj [("status", .num 404),
            ("data", .obj [("detail", .str "Model v9_xx not found")])],
          message := .str "Request failed with status code 404" })
      (.ok (.arr [sampleCustomer1])) (some "v9_xx") initialState
      { response := .obj [("status", .num 404),
          ("data", .obj [("detail", .str "Model v9_xx not found")])],
        message := .str "Request failed with status code 404" }
      (by simp [tryBlock, parseCustomers, normalize_arr, validate, predictBatch])).1).trans
    (by simp [errorShown, jsOr, optChain, ownProp, List.lookup, truthy])

/-- C17: the no-churn count is `total_customers` minus the churn count, by the
subtraction of doubles, which is the exact difference whenever that is an
integer of magnitude at most `2 ^ 53`.  When `total_customers` equals the
number of rows the churn count lies between 0 and `total_customers`, and (with
fewer than `2 ^ 32` rows, the bound on an array) the no-churn count is the
number of rows whose flag is not 1.  When the two differ it can count customers
that are on no row (total 25000 with two rows: 24999 against one unflagged row)
and it can be negative (total 0 with one flagged row: -1). -/
theorem noChurnCount_meaning (r : BatchResult) :
    noChurnCount r = numSubtract r.total_customers (churnCount r) ∧
    (|r.total_customers - (churnCount r : ℤ)| ≤ 2 ^ 53 →
      noChurnCount r = r.total_customers - churnCount r) ∧
    (r.total_customers = r.predictions.length →
      ((0 : ℤ) ≤ churnCount r ∧ (churnCount r : ℤ) ≤ r.total_customers) ∧
      (r.predictions.length < 2 ^ 32 →
        noChurnCount r
          = ((r.predictions.filter
              fun p => !strictEqualsOne p.prediction.churn_prediction).length : ℚ))) ∧
    (noChurnCount { twoRowResult with total_customers := 25000 } = 24999 ∧
      (({ twoRowResult with total_customers := 25000 } : BatchResult).predictions.filter
        fun (p : PredictionOutcome) => !strictEqualsOne p.prediction.churn_prediction).length
          = 1) ∧
    noChurnCount { twoRowResult with total_customers := 0 } = -1 := by
  have hsplit : ∀ l : List PredictionOutcome,
      (l.filter fun p => strictEqualsOne p.prediction.churn_prediction).length
        + (l.filter fun p => !strictEqualsOne p.prediction.churn_prediction).length
        = l.length := by
    intro l
    induction l with
    | nil => rfl
    | cons p rest ih =>
      cases hp : strictEqualsOne p.prediction.churn_prediction <;>
        simp [List.filter_cons, hp] <;> omega
  have hc : ∀ t : ℤ, churnCount { twoRowResult with total_customers := t } = 1 := by
    intro t
    simp [churnCount, twoRowResult, strictEqualsOne]
  refine ⟨rfl, noChurnCount_exact r, ?_, ⟨?_, ?_⟩, ?_⟩
  · intro ht
    have h1 := hsplit r.predictions
    have h2 := churnCount_le_length r
    refine ⟨⟨by omega, by omega⟩, ?_⟩
    intro hlen
    rw [noChurnCount_exact r (by rw [abs_le]; constructor <;> omega), ht]
    unfold churnCount at *
    have h3 : ((r.predictions.filter
        fun p => strictEqualsOne p.prediction.churn_prediction).length : ℚ)
        + ((r.predictions.filter
            fun p => !strictEqualsOne p.prediction.churn_prediction).length : ℚ)
        = (r.predictions.length : ℚ) := by exact_mod_cast h1
    push_cast
    linarith
  · rw [noChurnCount_exact _ (by rw [hc]; decide), hc]
    norm_num
  · simp [twoRowResult, strictEqualsOne]
  · rw [noChurnCount_exact _ (by rw [hc]; decide), hc]
    norm_num

/-- Witness of C17: in the two-row result, whose total equals its number of
rows, the no-churn count is the one row not flagged. -/
theorem noChurnCount_meaning_witness :
    noChurnCount twoRowResult
      = ((twoRowResult.predictions.filter
          fun p => !strictEqualsOne p.prediction.churn_prediction).length : ℚ) :=
  ((noChurnCount_meaning twoRowResult).2.2.1 rfl).2 (by simp [twoRowResult])

/-- C18: whatever the parse outcome, the model and the service do, a run ends
with `loading` false and never with both `results` and `error` set: when the
`try` body completes, `results` is the `data` of a response the service gave
and `error` is null; when it throws, `results` is null and `error` is truthy. -/
theorem handleSubmit_final_state (post : Transport) (parseOutcome : Except JSError JSValue)
    (selectedModel : Option String) (s : State) :
    (handleSubmit post parseOutcome selectedModel s).state.loading = false ∧
    ¬ ((handleSubmit post parseOutcome selectedModel s).state.results ≠ .null ∧
       (handleSubmit post parseOutcome selectedModel s).state.error ≠ .null) ∧
    (∀ prediction : JSValue, tryBlock post parseOutcome selectedModel = .ok prediction →
      (handleSubmit post parseOutcome selectedModel s).state.results = prediction ∧
      (handleSubmit post parseOutcome selectedModel s).state.error = .null ∧
      ∃ (customers : JSValue) (response : Response),
        post (predictBatchRequest customers selectedModel) = .ok response ∧
        response.data = prediction) ∧
    (∀ err : JSError, tryBlock post parseOutcome selectedModel = .error err →
      (handleSubmit post parseOutcome selectedModel s).state.results = .null ∧
      truthy (handleSubmit post parseOutcome selectedModel s).state.error = true) := by
  have hs := handleSubmit_state post parseOutcome selectedModel s
  refine ⟨?_, ?_, ?_, ?_⟩
  · rw [hs]; cases tryBlock post parseOutcome selectedModel <;> rfl
  · rw [hs]; cases tryBlock post parseOutcome selectedModel <;> simp
  · intro prediction ht
    rw [ht] at hs
    refine ⟨by rw [hs], by rw [hs], ?_⟩
    unfold tryBlock at ht
    cases h1 : parseCustomers parseOutcome with
    | error err => simp [h1] at ht
    | ok customers =>
      cases h2 : validate customers with
      | error err => simp [h1, h2] at ht
      | ok u =>
        simp only [h1, h2, predictBatch] at ht
        cases h3 : post (predictBatchRequest customers selectedModel) with
        | error err => simp [h3] at ht
        | ok response =>
          simp [h3] at ht
          exact ⟨customers, response, h3, ht⟩
  · intro err ht
    rw [ht] at hs
    refine ⟨by rw [hs], ?_⟩
    rw [hs]
    exact truthy_errorShown err

/-- Witness of C18: the pre-loaded sample with a service that answers, and the
empty array, which throws before the call. -/
theorem handleSubmit_final_state_witness :
    (handleSubmit (fun _ => .ok { data := .obj [("total_customers", .num 6)] })
        (.ok SAMPLE_JSON) (some "v1_lr") initialState).state.results
      = .obj [("total_customers", .num 6)] ∧
    (handleSubmit (fun _ => .ok { data := .null }) (.ok (.arr [])) (some "v1_lr")
        initialState).state.results = .null :=
  ⟨((handleSubmit_final_state (fun _ => .ok { data := .obj [("total_customers", .num 6)] })
      (.ok SAMPLE_JSON) (some "v1_lr") initialState).2.2.1 _
      (by simp [tryBlock, parseCustomers, SAMPLE_JSON, normalize, getProp, ownProp, List.lookup,
            truthy, isArray, validate, predictBatch])).1,
   ((handleSubmit_final_state (fun _ => .ok { data := .null }) (.ok (.arr [])) (some "v1_lr")
      initialState).2.2.2 (newError "Please provide at least one customer object.")
      (by simp [tryBlock, parseCustomers, normalize_arr, validate])).1⟩

/-- C13: for a result with a positive total (and fewer than `2 ^ 32` rows, the
bound on an array), the churn rate printed is a number with one decimal that is
nearest to the exact percentage `churnCount / total_customers * 100`: it
differs from it by at most 0.05.  For a total below `2 ^ 53`, an integer a
double holds exactly, quotient and product stay in the range where the rounding
is the IEEE one.  One churner of 1 prints `100.0`, one of 2 prints `50.0`. -/
theorem churnRate_rounded (r : BatchResult) (ht : 0 < r.total_customers)
    (hlen : r.predictions.length < 2 ^ 32) :
    (∃ n : ℕ, churnRateShown r = showTenths n ∧
      |(n : ℚ) / 10 - (churnCount r : ℚ) / r.total_customers * 100| ≤ 1 / 20) ∧
    (r.total_customers < 2 ^ 53 →
      normalRange ((churnCount r : ℚ) / r.total_customers) ∧
      normalRange (numDivide (churnCount r) r.total_customers * 100)) ∧
    churnRateShown oneRowResult = "100.0" ∧ churnRateShown twoRowResult = "50.0" := by
  have hc : churnCount r < 2 ^ 32 := lt_of_le_of_lt (churnCount_le_length r) hlen
  have htq : (0 : ℚ) < r.total_customers := by exact_mod_cast ht
  have hsafeq : r.total_customers < 2 ^ 53 → (r.total_customers : ℚ) ≤ 2 ^ 53 := by
    intro hsafe
    have : (r.total_customers : ℚ) < ((2 ^ 53 : ℤ) : ℚ) := by exact_mod_cast hsafe
    push_cast at this
    exact this.le
  have hcq : (churnCount r : ℚ) ≤ 2 ^ 32 := by
    have : ((churnCount r : ℕ) : ℚ) < ((2 ^ 32 : ℕ) : ℚ) := by exact_mod_cast hc
    push_cast at this
    exact this.le
  -- the number handed to `toFixed`, and its distance from the exact percentage
  have hx : |numMultiply (numDivide (churnCount r) r.total_customers) 100
        - (churnCount r : ℚ) / r.total_customers * 100|
      ≤ (churnCount r : ℚ) / r.total_customers * 100 * (2 / 2 ^ 53 + 1 / 2 ^ 106) := by
    unfold numMultiply numDivide
    rcases Nat.eq_zero_or_pos (churnCount r) with h0 | hpos
    · rw [h0]
      simp [toDouble_zero]
    · exact rate_error (churnCount r) r.total_customers hpos ht
  have hnear := tenths_near (churnCount r) r.total_customers ht hc _ hx
  have hy0 : (0 : ℚ) ≤ (churnCount r : ℚ) / r.total_customers :=
    div_nonneg (by exact_mod_cast Nat.zero_le _) htq.le
  have hxnn : ¬ numMultiply (numDivide (churnCount r) r.total_customers) 100 < 0 := by
    rw [abs_le] at hx
    have hsm : (2 : ℚ) / 2 ^ 53 + 1 / 2 ^ 106 ≤ 1 := by norm_num
    nlinarith [hx.1]
  refine ⟨⟨⌊numMultiply (numDivide (churnCount r) r.total_customers) 100 * 10 + 1 / 2⌋.toNat,
    ?_, ?_⟩, fun hsafe => ⟨?_, ?_⟩, ?_, ?_⟩
  · unfold churnRateShown toFixed1
    rw [if_neg ht.ne', if_neg hxnn]
  · have hcast : ((⌊numMultiply (numDivide (churnCount r) r.total_customers) 100 * 10
        + 1 / 2⌋.toNat : ℕ) : ℚ)
        = (⌊numMultiply (numDivide (churnCount r) r.total_customers) 100 * 10 + 1 / 2⌋ : ℚ) := by
      have := Int.toNat_of_nonneg hnear.1
      exact_mod_cast this
    rw [hcast]
    exact hnear.2
  · rcases Nat.eq_zero_or_pos (churnCount r) with h0 | hpos
    · left; rw [h0]; simp
    · right
      have htq2 := hsafeq hsafe
      have hc1 : (1 : ℚ) ≤ churnCount r := by exact_mod_cast hpos
      rw [abs_of_nonneg hy0]
      constructor
      · calc (2 : ℚ) ^ (-1022 : ℤ) ≤ 1 / 2 ^ 53 := by norm_num
          _ ≤ (churnCount r : ℚ) / r.total_customers := by
            rw [div_le_div_iff₀ (by positivity) htq]
            nlinarith
      · calc (churnCount r : ℚ) / r.total_customers ≤ churnCount r :=
            div_le_self (by linarith) (by exact_mod_cast ht)
          _ ≤ 2 ^ 32 := hcq
          _ ≤ (2 ^ 53 - 1) * 2 ^ 971 := by norm_num
  · unfold numDivide
    rcases Nat.eq_zero_or_pos (churnCount r) with h0 | hpos
    · left; rw [h0]; simp [toDouble_zero]
    · right
      have htq2 := hsafeq hsafe
      have hc1 : (1 : ℚ) ≤ churnCount r := by exact_mod_cast hpos
      have hy : (0 : ℚ) < (churnCount r : ℚ) / r.total_customers := div_pos (by linarith) htq
      have hylow : (1 : ℚ) / 2 ^ 53 ≤ (churnCount r : ℚ) / r.total_customers := by
        rw [div_le_div_iff₀ (by positivity) htq]
        nlinarith
      have hyup : (churnCount r : ℚ) / r.total_customers ≤ 2 ^ 32 :=
        le_trans (div_le_self (by linarith) (by exact_mod_cast ht)) hcq
      have ha := toDouble_error _ hy
      rw [abs_le] at ha
      have hsm : ((churnCount r : ℚ) / r.total_customers) / 2 ^ 53
          ≤ ((churnCount r : ℚ) / r.total_customers) / 2 := by
        apply div_le_div_of_nonneg_left hy.le (by norm_num) (by norm_num)
      have hapos : 0 ≤ toDouble ((churnCount r : ℚ) / r.total_customers) * 100 := by linarith
      rw [abs_of_nonneg hapos]
      constructor
      · calc (2 : ℚ) ^ (-1022 : ℤ) ≤ 1 / 2 ^ 53 / 2 * 100 := by norm_num
          _ ≤ toDouble ((churnCount r : ℚ) / r.total_customers) * 100 := by linarith
      · calc toDouble ((churnCount r : ℚ) / r.total_customers) * 100
            ≤ 2 ^ 32 * 2 * 100 := by linarith
          _ ≤ (2 ^ 53 - 1) * 2 ^ 971 := by norm_num
  · have h1 : toDouble 1 = 1 := by
      have := toDouble_exact (2 ^ 52) (-52) (by norm_num) (by norm_num)
      norm_num at this
      exact this
    have h100 : toDouble 100 = 100 := by
      have := toDouble_exact (100 * 2 ^ 46) (-46) (by norm_num) (by norm_num)
      norm_num at this
      exact this
    have hcnt : churnCount oneRowResult = 1 := by
      simp [churnCount, oneRowResult, strictEqualsOne]
    have hfl : ⌊(100 : ℚ) * 10 + 1 / 2⌋ = 1000 := by
      rw [Int.floor_eq_iff]; norm_num
    unfold churnRateShown toFixed1 numMultiply numDivide
    rw [hcnt]
    have ht1 : oneRowResult.total_customers = 1 := rfl
    rw [ht1]
    norm_num [h1, h100, hfl]
    decide
  · have hhalf : toDouble (1 / 2) = 1 / 2 := by
      have := toDouble_exact (2 ^ 52) (-53) (by norm_num) (by norm_num)
      norm_num at this
      exact this
    have h50 : toDouble 50 = 50 := by
      have := toDouble_exact (50 * 2 ^ 47) (-47) (by norm_num) (by norm_num)
      norm_num at this
      exact this
    have hcnt : churnCount twoRowResult = 1 := by
      simp [churnCount, twoRowResult, strictEqualsOne]
    have hfl : ⌊(50 : ℚ) * 10 + 1 / 2⌋ = 500 := by
      rw [Int.floor_eq_iff]; norm_num
    unfold churnRateShown toFixed1 numMultiply numDivide
    rw [hcnt]
    have ht2 : twoRowResult.total_customers = 2 := rfl
    rw [ht2]
    norm_num [hhalf, h50, hfl]
    decide

/-- Witness of C13: one churner among a total of 3, a quotient no double holds
exactly. -/
theorem churnRate_rounded_witness :
    ∃ n : ℕ, churnRateShown { twoRowResult with total_customers := 3 } = showTenths n ∧
      |(n : ℚ) / 10 - (churnCount { twoRowResult with total_customers := 3 } : ℚ)
        / ({ twoRowResult with total_customers := 3 } : BatchResult).total_customers * 100|
        ≤ 1 / 20 :=
  (churnRate_rounded { twoRowResult with total_customers := 3 } (by decide)
    (by simp [twoRowResult])).1

end ChurnFrontend
